import Mathlib

/-!
Verification of the Sonar Slack-bot script (src/main.py) against its
natural-language specification.

The first part embeds the concrete handler `handle_app_mention`
(src/main.py lines 109-134) as a pure function from an event body to a
trace of effects.  Python exceptions are modelled explicitly, and the
`except Exception` clause is modelled by a catch that only handles
exception classes deriving from `Exception`.

The second part models, from the specification, the components of the
intended NL-to-SQL pipeline that are absent from the source (commented
out): Safety Validator, Query Executor, Answer Synthesizer and the
Session Orchestrator state machine.
-/

namespace Sonar

/-- Python exceptions that matter here.  `keyError k` models `KeyError(k)`,
`indexError` models `IndexError` from an out-of-range list subscript, and
`baseOnly n` models exception classes (such as `KeyboardInterrupt`) that
derive from `BaseException` but not from `Exception`, hence are NOT caught
by an `except Exception` clause. -/
inductive PyExc where
  | keyError (key : String)
  | indexError
  | baseOnly (name : String)
deriving DecidableEq, Repr

/-- Whether the exception class derives from Python `Exception`, i.e. is
caught by `except Exception as e`. -/
def PyExc.isException : PyExc → Bool
  | .baseOnly _ => false
  | _ => true

/-- Python `str(e)` for the modelled exceptions: `str(KeyError(k))` is the
repr of the key, `str(IndexError(...))` for a list subscript is the literal
message below. -/
def excText : PyExc → String
  | .keyError k => "\x27" ++ k ++ "\x27"
  | .indexError => "list index out of range"
  | .baseOnly n => n

/-- The `event` object of a Slack `app_mention` delivery.  Fields are
optional: a missing key makes the corresponding subscript raise
`KeyError`. -/
structure EventObj where
  text : Option String
  user : Option String
  channel : Option String
  ts : Option String
deriving DecidableEq, Repr

/-- The full event body passed to the handler.  Besides `event` it carries
further top-level fields (team, event id) that the handler never reads. -/
structure Body where
  event : Option EventObj
  teamId : Option String
  eventId : Option String
deriving DecidableEq, Repr

/-- Observable effects of the handler.  `say` and `log` are the only
effects the current source can emit; `sqlExec` and `llmCall` stand for the
database execution and LLM backend calls of the commented-out agent, so
that their absence from every trace is a statement, not a typing
accident. -/
inductive Effect where
  | say (text : String)
  | log (text : String)
  | sqlExec (query : String)
  | llmCall (prompt : String)
deriving DecidableEq, Repr

/-- Whether an effect is one of the two the stub actually performs. -/
def isSayOrLog : Effect → Bool
  | .say _ => true
  | .log _ => true
  | _ => false

/-- Split a character list at the first occurrence of `sep`:
`splitFirst sep l = some (before, after)` when `sep` occurs, `none`
otherwise.  This is the semantics of Python `s.split(sep, 1)` regarding
whether index `[1]` exists. -/
def splitFirst (sep : Char) : List Char → Option (List Char × List Char)
  | [] => none
  | c :: cs =>
    if c = sep then some ([], cs)
    else (splitFirst sep cs).map (fun p => (c :: p.1, p.2))

/-- Python `text.split(' ', 1)[1]`: the part after the first space, when a
space exists; otherwise the subscript `[1]` raises `IndexError`. -/
def extractAfterMention (text : String) : Option String :=
  (splitFirst ' ' text.data).map (fun p => String.mk p.2)

/-- The mention syntax used to address a user, Python `f"<@{user_id}>"`. -/
def mention (u : String) : String := "<@" ++ u ++ ">"

/-- Acknowledgment message, src/main.py line 120. -/
def ackText (u : String) : String :=
  "Hey " ++ mention u ++ ", I\x27m on it! Let me check the data for you..."

/-- The placeholder agent response, src/main.py line 125: a dict with the
question as input and a hardcoded output. -/
def agentResponse (q : String) : String × String := (q, "Hello World!")

/-- Final answer message, src/main.py line 130. -/
def finalText (output : String) : String :=
  "Here is what I found:\n\n" ++ output

/-- Error reply, src/main.py line 134: a fixed template with `str(e)`
interpolated at the end. -/
def errText (e : PyExc) : String :=
  "Oops! I ran into an issue. Could you please rephrase your request? The error was: "
    ++ excText e

/-- Log line of src/main.py line 117. -/
def logReceived (u q : String) : String :=
  "Received query from user " ++ u ++ ": " ++ q

/-- Log line of src/main.py line 127 (the repr of the response dict). -/
def logResponse (q out : String) : String :=
  "Agent\x27s response: \x7b\x27input\x27: \x27" ++ q ++ "\x27, \x27output\x27: \x27"
    ++ out ++ "\x27\x7d"

/-- Log line of src/main.py line 133. -/
def logErrorText (e : PyExc) : String :=
  "An error occurred: " ++ excText e

/-- Body of the `try` block given the two event fields the code reads
(src/main.py lines 114-130): returns the effects emitted before either
normal completion or the first exception.  The subscripts are evaluated in
source order: `['text']`, then `.split(' , 1)[1]`, then `['user']`. -/
def mentionCore (text? user? : Option String) : List Effect × Option PyExc :=
  match text? with
  | none => ([], some (.keyError "text"))
  | some text =>
    match extractAfterMention text with
    | none => ([], some .indexError)
    | some q =>
      match user? with
      | none => ([], some (.keyError "user"))
      | some u =>
        ([.log (logReceived u q),
          .say (ackText u),
          .log (logResponse q (agentResponse q).2),
          .say (finalText (agentResponse q).2)], none)

/-- The whole `try` block (src/main.py lines 111-130): `body['event']` is
subscripted first. -/
def tryBlock (b : Body) : List Effect × Option PyExc :=
  match b.event with
  | none => ([], some (.keyError "event"))
  | some ev => mentionCore ev.text ev.user

/-- The handler `handle_app_mention` (src/main.py lines 110-134): run the
try block; an exception deriving from `Exception` is caught and answered
with a log line and the error reply; any other exception propagates. -/
def handle_app_mention (b : Body) : Except PyExc (List Effect) :=
  match tryBlock b with
  | (effs, none) => .ok effs
  | (effs, some e) =>
    if e.isException then .ok (effs ++ [.log (logErrorText e), .say (errText e)])
    else .error e

/-- The effect trace of a handler invocation (empty in the unreachable
case of a propagated exception). -/
def handlerEffects (b : Body) : List Effect :=
  match handle_app_mention b with
  | .ok effs => effs
  | .error _ => []

/-- The messages posted via `say`, in order, within an effect trace. -/
def saysOf (effs : List Effect) : List String :=
  effs.filterMap (fun e => match e with | .say t => some t | _ => none)

/-- List-level check that `p` is an initial segment of `l`. -/
def hasPrefixL : List Char → List Char → Bool
  | [], _ => true
  | _ :: _, [] => false
  | p :: ps, c :: cs => p == c && hasPrefixL ps cs

/-- List-level substring containment of `pat` in the second argument. -/
def containsSub : List Char → List Char → Bool
  | pat, [] => pat.isEmpty
  | pat, c :: cs => hasPrefixL pat (c :: cs) || containsSub pat cs

/-- `strContains s pat` holds when `pat` occurs contiguously in `s`. -/
def strContains (s pat : String) : Bool :=
  containsSub pat.data s.data

/-! Spec-modelled part: the NL-to-SQL core that src/main.py only contains
in commented-out form (lines 70-101).  Everything below is modelled from
the specification, as noted on each definition. -/

/-- Modelled from the spec: a column of a SchemaSnapshot (name, declared
type); the Schema Catalog itself is absent from src. -/
structure Column where
  name : String
  declType : String
deriving DecidableEq, Repr

/-- Modelled from the spec: a table of a SchemaSnapshot. -/
structure Table where
  name : String
  cols : List Column
deriving DecidableEq, Repr

/-- Modelled from the spec: reasons of a `Rejected` validation verdict. -/
inductive RejectReason where
  | notReadOnly
  | unknownEntity
  | multiStatement
deriving DecidableEq, Repr

/-- Modelled from the spec: a ValidationVerdict is `Approved` (carrying
the, possibly repaired, statement) or `Rejected(reason)`. -/
inductive Verdict where
  | approved (stmt : String)
  | rejected (r : RejectReason)
deriving DecidableEq, Repr

/-- Modelled from the spec: failure kinds of the Query Executor. -/
inductive FailureKind where
  | timeout
  | engineRejected
  | busy
deriving DecidableEq, Repr

/-- A result row: a mapping from column name to a rendered value. -/
abbrev Row : Type := List (String × String)

/-- Modelled from the spec: an ExecutionResult is either `Rows(rows,
truncated)` or `ExecutionFailure(kind, message)`. -/
inductive ExecResult where
  | rows (rs : List Row) (truncated : Bool)
  | failure (k : FailureKind) (msg : String)
deriving DecidableEq, Repr

/-- Split a character list at every occurrence of `sep` (the semantics of
Python `s.split(sep)`). -/
def splitAll (sep : Char) : List Char → List (List Char)
  | [] => [[]]
  | c :: cs =>
    let r := splitAll sep cs
    if c = sep then [] :: r
    else
      match r with
      | [] => [[c]]
      | t :: ts => (c :: t) :: ts

/-- Whitespace tokenisation of a statement. -/
def tokensOf (stmt : String) : List String :=
  (splitAll ' ' stmt.data).map String.mk

/-- Identifiers that directly follow a `FROM` token in a whitespace
tokenisation of a statement. -/
def tablesAfterFrom : List String → List String
  | [] => []
  | a :: rest =>
    (match rest with
     | [] => []
     | b :: _ => if a = "FROM" then [b] else []) ++ tablesAfterFrom rest

/-- Modelled from the spec: the Safety Validator repair of rule 4 — when
no explicit row-limit clause is present, inject a default cap of 500 rows
rather than rejecting. -/
def repairLimit (stmt : String) : String :=
  if strContains stmt "LIMIT" then stmt else stmt ++ " LIMIT 500"

/-- Modelled from the spec: the Safety Validator, absent from src
(commented out).  Its rejection rules are checked in order, first match
wins: (1) the statement is not a single top-level read-only construct,
modelled lexically as not starting with `SELECT`, gives
`Rejected(NotReadOnly)`; (2) a referenced table absent from the schema,
modelled as a token directly after `FROM` naming no schema table, gives
`Rejected(UnknownEntity)`; (3) a statement-separator token `;` gives
`Rejected(MultiStatement)`; (4) a missing row limit is repaired with a
default cap, not rejected. -/
def validate (schema : List Table) (stmt : String) : Verdict :=
  if hasPrefixL "SELECT".data stmt.data then
    if (tablesAfterFrom (tokensOf stmt)).all
        (fun t => schema.any (fun tb => tb.name == t)) then
      if strContains stmt ";" then .rejected .multiStatement
      else .approved (repairLimit stmt)
    else .rejected .unknownEntity
  else .rejected .notReadOnly

/-- Modelled from the spec: render one result row for the summary. -/
def renderRow (r : Row) : String :=
  String.intercalate ", " (r.map (fun p => p.1 ++ ": " ++ p.2))

/-- Modelled from the spec: the Answer Synthesizer, absent from src.
Given rows it produces a natural-language answer grounded only in the
returned rows; given a failure, a user-facing explanation driven only by
the failure kind, never echoing the raw internal message. -/
def summarize (question : String) (res : ExecResult) : String :=
  match res with
  | .rows rs _ =>
    "For the question " ++ question ++ ", the data shows: "
      ++ String.intercalate "; " (rs.map renderRow)
  | .failure .timeout _ => "The query took too long and was cancelled."
  | .failure .engineRejected _ => "The database rejected the generated query."
  | .failure .busy _ => "The data backend is busy right now, please retry later."

/-- Modelled from the spec: reasons recorded in `priorAttempts` for the
planning retry loop (validator rejections and engine rejections). -/
inductive RetryReason where
  | vr (r : RejectReason)
  | engineRejected
deriving DecidableEq, Repr

/-- Modelled from the spec: observable events of one orchestrated session,
used to state the validator-before-execution invariant.  `executed c s`
records an Executor call for candidate `c` with (possibly repaired)
statement `s`. -/
inductive OrchEvent where
  | planned (c : String)
  | validated (c : String) (v : Verdict)
  | executed (c : String) (stmt : String)
  | summarized
deriving DecidableEq, Repr

/-- Modelled from the spec: terminal outputs of the `Done` state. -/
inductive Outcome where
  | success (text : String)
  | failure (text : String) (kind : String)
deriving DecidableEq, Repr

/-- Modelled from the spec: the Session Orchestrator state machine, absent
from src.  `Planning -> Validating -> (Repairing or Executing) ->
Summarizing -> Done`, with the bounded retry edge back to `Planning` on a
validator rejection or an `EngineRejected` execution failure; `Timeout`
and `Busy` end the session without a further retry; an exhausted attempt
budget ends in a failure outcome.  The planner, validator and executor are
parameters; the fuel argument is the remaining attempt budget. -/
def orchLoop (val : String → Verdict) (exec : String → ExecResult)
    (plan : List (String × RetryReason) → String) (question : String) :
    Nat → List (String × RetryReason) → List OrchEvent × Outcome
  | 0, _ =>
    ([], .failure "I could not answer that within the allowed attempts." "RetryExhausted")
  | n + 1, prior =>
    let c := plan prior
    match val c with
    | .approved stmt =>
      match exec stmt with
      | .rows rs tr =>
        ([.planned c, .validated c (.approved stmt), .executed c stmt, .summarized],
         .success (summarize question (.rows rs tr)))
      | .failure .engineRejected _ =>
        let rest := orchLoop val exec plan question n (prior ++ [(c, .engineRejected)])
        ([.planned c, .validated c (.approved stmt), .executed c stmt] ++ rest.1, rest.2)
      | .failure .timeout m =>
        ([.planned c, .validated c (.approved stmt), .executed c stmt, .summarized],
         .failure (summarize question (.failure .timeout m)) "Timeout")
      | .failure .busy m =>
        ([.planned c, .validated c (.approved stmt), .executed c stmt, .summarized],
         .failure (summarize question (.failure .busy m)) "Busy")
    | .rejected r =>
      let rest := orchLoop val exec plan question n (prior ++ [(c, .vr r)])
      ([.planned c, .validated c (.rejected r)] ++ rest.1, rest.2)

/-- The scenario schema of the spec: one table `users(id, active: bool)`. -/
def usersSchema : List Table :=
  [⟨"users", [⟨"id", "int"⟩, ⟨"active", "bool"⟩]⟩]

/-- The scenario question. -/
def scenarioQuestion : String := "how many active users are there"

/-- The scenario planner: proposes the spec scenario statement. -/
def scenarioPlan : List (String × RetryReason) → String :=
  fun _ => "SELECT COUNT(*) FROM users WHERE active = true LIMIT 500"

/-- The scenario executor: returns one row with `count: 42`. -/
def scenarioExec : String → ExecResult :=
  fun _ => .rows [[("count", "42")]] false

/-- The answer text the scenario session produces. -/
def scenarioAnswer : String :=
  summarize scenarioQuestion (.rows [[("count", "42")]] false)

/-- A planner stub that keeps proposing a write statement, used to witness
the validator-before-execution invariant. -/
def deletePlan : List (String × RetryReason) → String :=
  fun _ => "DELETE FROM users"

/-- Whether a handler run completed without propagating an exception. -/
def exceptOk : Except PyExc (List Effect) → Bool
  | .ok _ => true
  | .error _ => false

/-! Concrete event bodies used by the claim theorems and witnesses. -/

/-- Body whose event lacks the `user` key: the try block raises
`KeyError` after extraction. -/
def c1Body : Body :=
  { event := some
      { text := some "<@U0BOT> how many users are there", user := none,
        channel := some "C042", ts := some "1700000000.000100" },
    teamId := some "T01", eventId := some "Ev01" }

/-- Well-formed event used by the C3 witness. -/
def c3Ev : EventObj :=
  { text := some "<@U0BOT> how many active users", user := some "U777",
    channel := some "C042", ts := some "1700000001.000200" }

/-- Body of the C3 witness. -/
def c3Body : Body :=
  { event := some c3Ev, teamId := some "T01", eventId := some "Ev02" }

/-- Well-formed event used by the C5 witness. -/
def c5Ev : EventObj :=
  { text := some "<@U0BOT> list the top merchants", user := some "U888",
    channel := some "C042", ts := some "1700000002.000300" }

/-- Body of the C5 witness. -/
def c5Body : Body :=
  { event := some c5Ev, teamId := some "T01", eventId := some "Ev03" }

/-- Bare-mention event (no space in the text) used by the C8 witness. -/
def c8Ev : EventObj :=
  { text := some "<@U0BOT>", user := some "U999",
    channel := some "C042", ts := some "1700000003.000400" }

/-- Body of the C8 witness. -/
def c8Body : Body :=
  { event := some c8Ev, teamId := some "T01", eventId := some "Ev04" }

/-- Event of the first C9 witness body. -/
def c9EvA : EventObj :=
  { text := some "<@U0BOT> revenue today", user := some "U123",
    channel := some "C100", ts := some "1700000004.000500" }

/-- Event of the second C9 witness body: same text and user, every other
field different. -/
def c9EvB : EventObj :=
  { text := some "<@U0BOT> revenue today", user := some "U123",
    channel := some "C200", ts := some "1700000005.000600" }

/-- First C9 witness body. -/
def c9BodyA : Body :=
  { event := some c9EvA, teamId := some "TA", eventId := some "EvA" }

/-- Second C9 witness body. -/
def c9BodyB : Body :=
  { event := some c9EvB, teamId := some "TB", eventId := some "EvB" }

/-! Helper lemmas. -/

/-- Splitting at the first separator fails exactly when the separator does
not occur. -/
theorem splitFirst_eq_none_iff (sep : Char) (l : List Char) :
    splitFirst sep l = none ↔ sep ∉ l := by
  induction l with
  | nil => simp [splitFirst]
  | cons c cs ih =>
    by_cases hc : c = sep
    · subst hc
      simp [splitFirst]
    · simp [splitFirst, hc, Option.map_eq_none, ih, Ne.symm hc]

/-- Extraction fails exactly when the text has no space. -/
theorem extractAfterMention_eq_none_iff (t : String) :
    extractAfterMention t = none ↔ ' ' ∉ t.data := by
  simp [extractAfterMention, Option.map_eq_none, splitFirst_eq_none_iff]

/-- A list is a prefix of itself followed by anything. -/
theorem hasPrefixL_append (p t : List Char) : hasPrefixL p (p ++ t) = true := by
  induction p with
  | nil => simp [hasPrefixL]
  | cons c cs ih => simp [hasPrefixL, ih]

/-- The empty pattern is contained everywhere. -/
theorem containsSub_nil (l : List Char) : containsSub [] l = true := by
  cases l with
  | nil => simp [containsSub, List.isEmpty]
  | cons c cs => simp [containsSub, hasPrefixL]

/-- A pattern is contained in any list that carries it contiguously. -/
theorem containsSub_mid (p x y : List Char) :
    containsSub p (x ++ p ++ y) = true := by
  induction x with
  | nil =>
    cases p with
    | nil => simpa using containsSub_nil y
    | cons a ps =>
      have hstep : containsSub (a :: ps) (([] : List Char) ++ (a :: ps) ++ y)
          = (hasPrefixL (a :: ps) ((a :: ps) ++ y) || containsSub (a :: ps) (ps ++ y)) := rfl
      rw [hstep, hasPrefixL_append, Bool.true_or]
  | cons c x' ih =>
    have hstep : containsSub p ((c :: x') ++ p ++ y)
        = (hasPrefixL p ((c :: x') ++ p ++ y) || containsSub p (x' ++ p ++ y)) := rfl
    rw [hstep, ih, Bool.or_true]

/-- The acknowledgment message carries the requesting user mention. -/
theorem strContains_ack (u : String) :
    strContains (ackText u) (mention u) = true := by
  have h : (ackText u).data =
      "Hey ".data ++ ((mention u).data
        ++ ", I\x27m on it! Let me check the data for you...".data) := by
    simp [ackText, String.data_append, List.append_assoc]
  show containsSub (mention u).data (ackText u).data = true
  rw [h, ← List.append_assoc]
  exact containsSub_mid _ _ _

/-- Trace of a well-formed invocation: the text holds a space (so the
question `q` is extracted) and the user is present. -/
theorem handlerEffects_success (b : Body) (ev : EventObj) (t u q : String)
    (hb : b.event = some ev) (ht : ev.text = some t) (hu : ev.user = some u)
    (hq : extractAfterMention t = some q) :
    handlerEffects b =
      [.log (logReceived u q), .say (ackText u),
       .log (logResponse q "Hello World!"), .say (finalText "Hello World!")] := by
  simp [handlerEffects, handle_app_mention, tryBlock, mentionCore, hb, ht, hu, hq,
    agentResponse]

/-- Trace of an invocation whose try block raises an exception `e` before
any effect: the handler emits the error log and the error reply. -/
theorem handlerEffects_exc (b : Body) (e : PyExc)
    (h : tryBlock b = ([], some e)) (he : e.isException = true) :
    handlerEffects b = [.log (logErrorText e), .say (errText e)] := by
  simp [handlerEffects, handle_app_mention, h, he]

/-- Messages posted on the success path: the acknowledgment, then the
final answer. -/
theorem saysOf_success (b : Body) (ev : EventObj) (t u q : String)
    (hb : b.event = some ev) (ht : ev.text = some t) (hu : ev.user = some u)
    (hq : extractAfterMention t = some q) :
    saysOf (handlerEffects b) = [ackText u, finalText "Hello World!"] := by
  rw [handlerEffects_success b ev t u q hb ht hu hq]
  simp [saysOf]

/-- A space in the text makes the extraction succeed. -/
theorem extract_of_space (t : String) (hsp : ' ' ∈ t.data) :
    ∃ q, extractAfterMention t = some q := by
  cases hx : extractAfterMention t with
  | none => exact absurd hsp ((extractAfterMention_eq_none_iff t).1 hx)
  | some q => exact ⟨q, rfl⟩

/-! Claim theorems. -/

/-- Claim C1 (code bug): against the claim that the reply never contains
the internal exception text verbatim, a body whose event lacks the `user`
key makes the handler post exactly one message, the error reply, and that
reply contains `str(e)` — here the text of `KeyError` on the key `user` —
verbatim (src/main.py line 134 interpolates the exception into the
message). -/
theorem error_reply_echoes_exception_text :
    saysOf (handlerEffects c1Body) = [errText (PyExc.keyError "user")] ∧
    strContains (errText (PyExc.keyError "user")) (excText (PyExc.keyError "user")) = true ∧
    excText (PyExc.keyError "user") = "\x27user\x27" := by
  decide

/-- Claim C3: for every well-formed app_mention event whose text contains
a space, the final message the handler posts is the fixed placeholder
string, independent of the question content. -/
theorem final_message_is_hardcoded_placeholder (b : Body) (ev : EventObj) (t u : String)
    (hb : b.event = some ev) (ht : ev.text = some t) (hu : ev.user = some u)
    (hsp : ' ' ∈ t.data) :
    (saysOf (handlerEffects b)).getLast? = some "Here is what I found:\n\nHello World!" := by
  obtain ⟨q, hq⟩ := extract_of_space t hsp
  rw [saysOf_success b ev t u q hb ht hu hq]
  have hf : finalText "Hello World!" = "Here is what I found:\n\nHello World!" := by decide
  simp [hf]

/-- Witness for C3 at a concrete body. -/
theorem final_message_is_hardcoded_placeholder_witness :
    (' ' ∈ ("<@U0BOT> how many active users").data) ∧
    (saysOf (handlerEffects c3Body)).getLast? = some "Here is what I found:\n\nHello World!" :=
  ⟨by decide,
    final_message_is_hardcoded_placeholder c3Body c3Ev "<@U0BOT> how many active users" "U777"
      rfl rfl rfl (by decide)⟩

/-- Claim C5: on the success path the handler posts exactly two messages,
an acknowledgment addressed to the requesting user first and the final
answer second; the acknowledgment is never after the final message. -/
theorem ack_before_final_exactly_two (b : Body) (ev : EventObj) (t u : String)
    (hb : b.event = some ev) (ht : ev.text = some t) (hu : ev.user = some u)
    (hsp : ' ' ∈ t.data) :
    saysOf (handlerEffects b) = [ackText u, finalText "Hello World!"] ∧
    strContains (ackText u) (mention u) = true := by
  obtain ⟨q, hq⟩ := extract_of_space t hsp
  exact ⟨saysOf_success b ev t u q hb ht hu hq, strContains_ack u⟩

/-- Witness for C5 at a concrete body. -/
theorem ack_before_final_exactly_two_witness :
    (' ' ∈ ("<@U0BOT> list the top merchants").data) ∧
    (saysOf (handlerEffects c5Body) = [ackText "U888", finalText "Hello World!"] ∧
      strContains (ackText "U888") (mention "U888") = true) :=
  ⟨by decide,
    ack_before_final_exactly_two c5Body c5Ev "<@U0BOT> list the top merchants" "U888"
      rfl rfl rfl (by decide)⟩

/-- Claim C8: an event whose text has no space makes the subscript `[1]`
of `split(' ', 1)` raise `IndexError` before any message is posted, so the
only message is the error reply — no acknowledgment is sent. -/
theorem bare_mention_only_error_reply (b : Body) (ev : EventObj) (t : String)
    (hb : b.event = some ev) (ht : ev.text = some t) (hns : ' ' ∉ t.data) :
    tryBlock b = ([], some PyExc.indexError) ∧
    saysOf (handlerEffects b) = [errText PyExc.indexError] := by
  have hx : extractAfterMention t = none := (extractAfterMention_eq_none_iff t).2 hns
  refine ⟨by simp [tryBlock, mentionCore, hb, ht, hx], ?_⟩
  simp [handlerEffects, handle_app_mention, tryBlock, mentionCore, hb, ht, hx, saysOf,
    PyExc.isException]

/-- Witness for C8 at a concrete bare mention. -/
theorem bare_mention_only_error_reply_witness :
    (' ' ∉ ("<@U0BOT>").data) ∧
    (tryBlock c8Body = ([], some PyExc.indexError) ∧
      saysOf (handlerEffects c8Body) = [errText PyExc.indexError]) :=
  ⟨by decide, bare_mention_only_error_reply c8Body c8Ev "<@U0BOT>" rfl rfl (by decide)⟩

/-- Claim C9: the handler is deterministic in the event text and user —
two bodies agreeing on `event.text` and `event.user` produce the identical
effect trace, whatever their other fields hold. -/
theorem trace_depends_only_on_text_and_user (b1 b2 : Body) (ev1 ev2 : EventObj)
    (h1 : b1.event = some ev1) (h2 : b2.event = some ev2)
    (ht : ev1.text = ev2.text) (hu : ev1.user = ev2.user) :
    handlerEffects b1 = handlerEffects b2 := by
  simp [handlerEffects, handle_app_mention, tryBlock, h1, h2, ht, hu]

/-- Witness for C9: two bodies differing in channel, timestamp, team and
event id but agreeing on text and user. -/
theorem trace_depends_only_on_text_and_user_witness :
    c9EvA.text = c9EvB.text ∧ c9EvA.user = c9EvB.user ∧
    handlerEffects c9BodyA = handlerEffects c9BodyB :=
  ⟨rfl, rfl, trace_depends_only_on_text_and_user c9BodyA c9BodyB c9EvA c9EvB rfl rfl rfl rfl⟩

/-- Every try-block run either raises an exception deriving from
`Exception` before any effect, or completes with the two-log, two-say
success trace. -/
theorem tryBlock_shape (b : Body) :
    (∃ e, tryBlock b = ([], some e) ∧ e.isException = true) ∨
    (∃ u q, tryBlock b =
      ([.log (logReceived u q), .say (ackText u),
        .log (logResponse q "Hello World!"), .say (finalText "Hello World!")], none)) := by
  obtain ⟨ev?, tid, eid⟩ := b
  cases ev? with
  | none => exact Or.inl ⟨.keyError "event", rfl, rfl⟩
  | some ev =>
    obtain ⟨t?, u?, ch, ts⟩ := ev
    cases t? with
    | none => exact Or.inl ⟨.keyError "text", rfl, rfl⟩
    | some t =>
      cases hx : extractAfterMention t with
      | none =>
        exact Or.inl ⟨.indexError, by simp [tryBlock, mentionCore, hx], rfl⟩
      | some q =>
        cases u? with
        | none =>
          exact Or.inl ⟨.keyError "user", by simp [tryBlock, mentionCore, hx], rfl⟩
        | some u =>
          exact Or.inr ⟨u, q, by simp [tryBlock, mentionCore, hx, agentResponse]⟩

/-- Claim C2: every invocation posts at least one message via `say`,
whether the try block succeeds or raises — the catch-all wrapper always
answers the user. -/
theorem handler_always_replies (b : Body) :
    1 ≤ (saysOf (handlerEffects b)).length := by
  rcases tryBlock_shape b with ⟨e, hts, he⟩ | ⟨u, q, hts⟩
  · rw [handlerEffects_exc b e hts he]
    simp [saysOf]
  · have h : handlerEffects b =
        [.log (logReceived u q), .say (ackText u),
         .log (logResponse q "Hello World!"), .say (finalText "Hello World!")] := by
      simp [handlerEffects, handle_app_mention, hts]
    rw [h]
    simp [saysOf]

/-- Claim C4: the handler's only effects are `say` messages and log lines;
no SQL execution and no LLM call occurs for any event body — the agent and
database wiring are disabled. -/
theorem handler_no_sql_no_llm (b : Body) :
    (handlerEffects b).all isSayOrLog = true ∧
    (∀ s, Effect.sqlExec s ∉ handlerEffects b) ∧
    (∀ p, Effect.llmCall p ∉ handlerEffects b) := by
  have hall : (handlerEffects b).all isSayOrLog = true := by
    rcases tryBlock_shape b with ⟨e, hts, he⟩ | ⟨u, q, hts⟩
    · rw [handlerEffects_exc b e hts he]
      simp [isSayOrLog]
    · have h : handlerEffects b =
          [.log (logReceived u q), .say (ackText u),
           .log (logResponse q "Hello World!"), .say (finalText "Hello World!")] := by
        simp [handlerEffects, handle_app_mention, hts]
      rw [h]
      simp [isSayOrLog]
  rw [List.all_eq_true] at hall
  refine ⟨by rw [List.all_eq_true]; exact hall, fun s hmem => ?_, fun p hmem => ?_⟩
  · have := hall _ hmem
    simp [isSayOrLog] at this
  · have := hall _ hmem
    simp [isSayOrLog] at this

/-- Claim C10: the handler never propagates an exception to its caller,
for any event body, including bodies missing the `event`, `text` or `user`
keys: every exception the try block can raise derives from `Exception`
and is caught. -/
theorem handler_never_propagates (b : Body) :
    exceptOk (handle_app_mention b) = true := by
  rcases tryBlock_shape b with ⟨e, hts, he⟩ | ⟨u, q, hts⟩
  · simp [handle_app_mention, hts, he, exceptOk]
  · simp [handle_app_mention, hts, exceptOk]

/-- An Executor call only ever happens for a candidate the validator
approved: every `executed` event of a session trace carries a candidate on
which `val` returned `Approved` with that statement. -/
theorem executed_implies_approved (val : String → Verdict) (exec : String → ExecResult)
    (plan : List (String × RetryReason) → String) (question : String) :
    ∀ (fuel : Nat) (prior : List (String × RetryReason)) (c s : String),
      OrchEvent.executed c s ∈ (orchLoop val exec plan question fuel prior).1 →
      val c = Verdict.approved s := by
  intro fuel
  induction fuel with
  | zero =>
    intro prior c s h
    simp [orchLoop] at h
  | succ n ih =>
    intro prior c s h
    simp only [orchLoop] at h
    split at h
    next stmt hv =>
      split at h
      next rs tr hex =>
        simp at h
        obtain ⟨hc, hs⟩ := h
        rw [hc, hs]
        exact hv
      next m hex =>
        simp at h
        rcases h with ⟨hc, hs⟩ | h
        · rw [hc, hs]
          exact hv
        · exact ih _ c s h
      next m hex =>
        simp at h
        obtain ⟨hc, hs⟩ := h
        rw [hc, hs]
        exact hv
      next m hex =>
        simp at h
        obtain ⟨hc, hs⟩ := h
        rw [hc, hs]
        exact hv
    next r hv =>
      simp at h
      exact ih _ c s h

/-- Claim C6 (spec-modelled): a candidate the Safety Validator rejects as
`NotReadOnly` is never the subject of an Executor call in any session,
whatever the planner, executor, attempt budget and prior attempts — the
validator is the sole gate between candidate queries and execution. -/
theorem rejected_candidate_never_executed (val : String → Verdict)
    (exec : String → ExecResult) (plan : List (String × RetryReason) → String)
    (question : String) (fuel : Nat) (prior : List (String × RetryReason))
    (c s : String) (h : val c = Verdict.rejected RejectReason.notReadOnly) :
    OrchEvent.executed c s ∉ (orchLoop val exec plan question fuel prior).1 := by
  intro hmem
  have happ := executed_implies_approved val exec plan question fuel prior c s hmem
  rw [h] at happ
  exact Verdict.noConfusion happ

/-- Witness for C6: a session whose planner keeps proposing a `DELETE`
statement, rejected as `NotReadOnly` by the modelled validator, never
executes it. -/
theorem rejected_candidate_never_executed_witness :
    validate usersSchema "DELETE FROM users" = Verdict.rejected RejectReason.notReadOnly ∧
    OrchEvent.executed "DELETE FROM users" "DELETE FROM users" ∉
      (orchLoop (validate usersSchema) scenarioExec deletePlan "delete all users" 3 []).1 :=
  ⟨by decide,
    rejected_candidate_never_executed (validate usersSchema) scenarioExec deletePlan
      "delete all users" 3 [] "DELETE FROM users" "DELETE FROM users" (by decide)⟩

/-- Claim C7 (spec-modelled): in the scenario session for the question
about active users, the validator approves the planned statement, the
session succeeds, and the final answer text contains `42` — the count
returned by the executor. -/
theorem scenario_answer_contains_42 :
    (orchLoop (validate usersSchema) scenarioExec scenarioPlan scenarioQuestion 3 []).1.contains
      (OrchEvent.validated (scenarioPlan []) (Verdict.approved (scenarioPlan []))) = true ∧
    (orchLoop (validate usersSchema) scenarioExec scenarioPlan scenarioQuestion 3 []).2
      = Outcome.success scenarioAnswer ∧
    strContains scenarioAnswer "42" = true := by
  decide

end Sonar
